import Mathlib

/-!
Verification development for the Data_Discovery financial-sources finder.

We give a shallow embedding of the retry/tuning feedback loop of
`FinancialSourcesFinder.find_financial_source` (src/Data_Discovery/main.py and
src/Data_Discovery/scraping/claude_challenge_code.py), of
`PromptTuner.improve_prompt` (src/Data_Discovery/model/prompt_tuner.py),
of `ResultValidator.validate_result` and `WebScraperModule.get_page` and
`WebScraperModule._extract_year_from_text`
(src/Data_Discovery/scraping/claude_challenge_code.py), and of the
module-import structure of src/Data_Discovery/model/result_validator.py.

External effects (the Gemini API, HTTP requests, the clock) are modelled as
oracles: functions supplied as parameters that give the outcome of the k-th
call.  Python dicts with a fixed key set are modelled as structures whose
fields are `Option`-valued, with `Option.getD` playing the role of
`dict.get(key, default)`.
-/

set_option linter.unusedVariables false

namespace DataDiscovery

/-- The dict `scraping_result` built in `find_financial_source` from the tuple
returned by `WebScraperModule.scrape_financial_sources`:
keys url, year, source_description, confidence (main.py line 67). -/
structure ScrapingResult where
  url : Option String
  year : Option String
  source_description : Option String
  confidence : Option String
deriving DecidableEq, Repr

/-- A validation dict as consumed by the loop guard and the final result of
`find_financial_source`: the keys read via `.get` with defaults are is_valid
(default False), validation_score (default 0) and feedback (default "").
A missing key is `none`. -/
structure ValidationResult where
  is_valid : Option Bool
  validation_score : Option Int
  feedback : Option String
  improvement_suggestions : Option String
deriving DecidableEq, Repr

/-- The loop guard condition of main.py lines 74-77 (identically
claude_challenge_code.py lines 1287-1290), without the iteration bound:
`not validation_result.get("is_valid", False) or
 validation_result.get("validation_score", 0) < self.validation_threshold`. -/
def validationFailed (threshold : Int) (v : ValidationResult) : Bool :=
  !(v.is_valid.getD false) || decide (v.validation_score.getD 0 < threshold)

/-- One record of `PromptTuner.tuning_history`
(model/prompt_tuner.py lines 125-134). -/
structure TuningRecord where
  company : String
  old_prompt : String
  new_prompt : String
  scraping_result : ScrapingResult
  validation_result : ValidationResult
  timestamp : String
deriving DecidableEq, Repr

/-- The mutable state of a `PromptTuner`
(model/prompt_tuner.py lines 32-61). -/
structure PromptTunerState where
  current_prompt : String
  tuning_history : List TuningRecord
deriving DecidableEq, Repr

/-- Python `str.strip()` with no argument: remove leading and trailing
whitespace.  (Python strips any Unicode whitespace; the embedding uses
`Char.isWhitespace`, which covers space, tab, carriage return and newline —
the distinction never matters below.) -/
def pyStrip (s : String) : String :=
  ⟨((s.data.dropWhile Char.isWhitespace).reverse.dropWhile
      Char.isWhitespace).reverse⟩

/-- `PromptTuner.improve_prompt` (model/prompt_tuner.py lines 77-143,
identically claude_challenge_code.py lines 1067-1133).  The Gemini call
`self.model.generate_content(improvement_prompt)` is modelled by the oracle
value `outcome`: `some text` when the call returns a response whose `.text`
is `text`, `none` when it raises.  `datetime.now().isoformat()` is the oracle
value `ts`.  Python `str.strip()` is `pyStrip`.  Returns the new tuner
state and the returned prompt. -/
def improve_prompt (st : PromptTunerState) (company source : String)
    (scraping : ScrapingResult) (validation : ValidationResult)
    (outcome : Option String) (ts : String) : PromptTunerState × String :=
  match outcome with
  | some text =>
      let new_prompt := pyStrip text
      let record : TuningRecord :=
        { company := company, old_prompt := st.current_prompt,
          new_prompt := new_prompt, scraping_result := scraping,
          validation_result := validation, timestamp := ts }
      ({ current_prompt := new_prompt,
         tuning_history := st.tuning_history ++ [record] }, new_prompt)
  | none =>
      (st, st.current_prompt)

/-- One observable call performed by `find_financial_source`, with its
arguments and (for scraper and validator calls) its result.  Traces of these
events record the order of the three calls of each tuning iteration. -/
inductive FinderEvent where
  | scrapeCall (company source : String) (result : ScrapingResult)
  | validateCall (company source : String) (arg : ScrapingResult) (result : ValidationResult)
  | improveCall (company source : String) (scraping : ScrapingResult) (validation : ValidationResult)
deriving DecidableEq, Repr

/-- Oracles for the external effects reached from `find_financial_source`:
`scrape k` is the tuple returned by the k-th call of
`WebScraperModule.scrape_financial_sources` (k = 0 is the initial scrape);
`validate k r` is the dict returned by the k-th call of
`ResultValidator.validate_result`, whose `scraping_result` argument is `r`;
`tune k` is the outcome of the Gemini call inside the k-th call of
`PromptTuner.improve_prompt` (`none` models the call raising);
`timestamp k` is the k-th value of `datetime.now().isoformat()`.
Note that `scrape_financial_sources` takes only the company name and the
source type (claude_challenge_code.py line 468), which are loop invariants,
so its outcome is indexed by the call count alone. -/
structure FinderEnv where
  scrape : Nat → ScrapingResult
  validate : Nat → ScrapingResult → ValidationResult
  tune : Nat → Option String
  timestamp : Nat → String

/-- The local state of the while loop of `find_financial_source`
(main.py lines 73-96): the variables `iteration`, `scraping_result` and
`validation_result`, the state of `self.prompt_tuner`, and the trace of the
calls performed so far. -/
structure LoopState where
  iteration : Nat
  scraping : ScrapingResult
  validation : ValidationResult
  tuner : PromptTunerState
  trace : List FinderEvent

/-- The dict `final_result` of main.py lines 99-110 (identically
claude_challenge_code.py lines 1312-1323). -/
structure FinalResult where
  company_name : String
  source_type : String
  url : Option String
  year : Option String
  source_description : Option String
  confidence : Option String
  validation_score : Int
  is_valid : Bool
  tuning_iterations : Nat
  feedback : String
deriving DecidableEq, Repr

namespace Main

/-- The body of the while loop of `FinancialSourcesFinder.find_financial_source`
in main.py (lines 78-96): `iteration += 1`, then
`self.prompt_tuner.improve_prompt(company_name, source_type, scraping_result,
validation_result)` (its return value is discarded), then a rescrape, then a
revalidation of the new scraping result. -/
def loopStep (env : FinderEnv) (company source : String) (st : LoopState) : LoopState :=
  let k := st.iteration + 1
  let tuner' := (improve_prompt st.tuner company source st.scraping st.validation
      (env.tune st.iteration) (env.timestamp st.iteration)).1
  let s' := env.scrape k
  let v' := env.validate k s'
  { iteration := k, scraping := s', validation := v', tuner := tuner',
    trace := st.trace ++
      [FinderEvent.improveCall company source st.scraping st.validation,
       FinderEvent.scrapeCall company source s',
       FinderEvent.validateCall company source s' v'] }

/-- The while loop of main.py lines 74-96: it runs while the last validation
failed against the threshold and `iteration < max_tuning_iterations`.
`st.iteration` starts at 0 and is incremented exactly once per pass, so the
conjunct `iteration < max_tuning_iterations` of the guard holds exactly when
the remaining budget `max_tuning_iterations - iteration` is nonzero; that
budget is the first explicit argument, which makes the recursion structural. -/
def tuning_loop (env : FinderEnv) (company source : String) (threshold : Int) :
    Nat → LoopState → LoopState
  | 0, st => st
  | budget + 1, st =>
    if validationFailed threshold st.validation then
      tuning_loop env company source threshold budget (loopStep env company source st)
    else st

/-- `FinancialSourcesFinder.find_financial_source` of main.py lines 49-113:
initial scrape, initial validation, the tuning while loop, then the final
result dict.  Returns the final result together with the final loop state
(whose trace records every call made). -/
def find_financial_source (env : FinderEnv) (tuner0 : PromptTunerState)
    (company source : String) (maxIter : Nat) (threshold : Int) :
    FinalResult × LoopState :=
  let s0 := env.scrape 0
  let v0 := env.validate 0 s0
  let st0 : LoopState :=
    { iteration := 0, scraping := s0, validation := v0, tuner := tuner0,
      trace := [FinderEvent.scrapeCall company source s0,
                FinderEvent.validateCall company source s0 v0] }
  let fin := tuning_loop env company source threshold maxIter st0
  ({ company_name := company, source_type := source,
     url := fin.scraping.url, year := fin.scraping.year,
     source_description := fin.scraping.source_description,
     confidence := fin.scraping.confidence,
     validation_score := fin.validation.validation_score.getD 0,
     is_valid := fin.validation.is_valid.getD false,
     tuning_iterations := fin.iteration,
     feedback := fin.validation.feedback.getD "" }, fin)

end Main

namespace ClaudeChallengeCode

/-- The body of the while loop of `FinancialSourcesFinder.find_financial_source`
in scraping/claude_challenge_code.py (lines 1291-1309), which duplicates
main.py lines 78-96 verbatim. -/
def loopStep (env : FinderEnv) (company source : String) (st : LoopState) : LoopState :=
  let k := st.iteration + 1
  let tuner' := (improve_prompt st.tuner company source st.scraping st.validation
      (env.tune st.iteration) (env.timestamp st.iteration)).1
  let s' := env.scrape k
  let v' := env.validate k s'
  { iteration := k, scraping := s', validation := v', tuner := tuner',
    trace := st.trace ++
      [FinderEvent.improveCall company source st.scraping st.validation,
       FinderEvent.scrapeCall company source s',
       FinderEvent.validateCall company source s' v'] }

/-- The while loop of claude_challenge_code.py lines 1287-1309, duplicating
main.py lines 74-96 verbatim; the iteration bound is carried as a structural
budget argument exactly as in `Main.tuning_loop`. -/
def tuning_loop (env : FinderEnv) (company source : String) (threshold : Int) :
    Nat → LoopState → LoopState
  | 0, st => st
  | budget + 1, st =>
    if validationFailed threshold st.validation then
      tuning_loop env company source threshold budget (loopStep env company source st)
    else st

/-- `FinancialSourcesFinder.find_financial_source` of
scraping/claude_challenge_code.py lines 1262-1326, which duplicates main.py
lines 49-113 verbatim. -/
def find_financial_source (env : FinderEnv) (tuner0 : PromptTunerState)
    (company source : String) (maxIter : Nat) (threshold : Int) :
    FinalResult × LoopState :=
  let s0 := env.scrape 0
  let v0 := env.validate 0 s0
  let st0 : LoopState :=
    { iteration := 0, scraping := s0, validation := v0, tuner := tuner0,
      trace := [FinderEvent.scrapeCall company source s0,
                FinderEvent.validateCall company source s0 v0] }
  let fin := tuning_loop env company source threshold maxIter st0
  ({ company_name := company, source_type := source,
     url := fin.scraping.url, year := fin.scraping.year,
     source_description := fin.scraping.source_description,
     confidence := fin.scraping.confidence,
     validation_score := fin.validation.validation_score.getD 0,
     is_valid := fin.validation.is_valid.getD false,
     tuning_iterations := fin.iteration,
     feedback := fin.validation.feedback.getD "" }, fin)

end ClaudeChallengeCode

/-- The validation result obtained for the k-th scraping result: what the
variable `validation_result` holds after k tuning iterations. -/
def valAt (env : FinderEnv) (k : Nat) : ValidationResult :=
  env.validate k (env.scrape k)

/-- The three events generated by the tuning iteration that moves the loop
from iteration count k to k+1. -/
def iterBlock (env : FinderEnv) (company source : String) (k : Nat) : List FinderEvent :=
  [FinderEvent.improveCall company source (env.scrape k) (valAt env k),
   FinderEvent.scrapeCall company source (env.scrape (k + 1)),
   FinderEvent.validateCall company source (env.scrape (k + 1)) (valAt env (k + 1))]

/-- The components of the loop state that do not involve the prompt tuner. -/
def LoopState.obs (st : LoopState) :
    Nat × ScrapingResult × ValidationResult × List FinderEvent :=
  (st.iteration, st.scraping, st.validation, st.trace)

/-- The number of tuning iterations recorded in a trace: the number of
`improveCall` events. -/
def countImprove (tr : List FinderEvent) : Nat :=
  (tr.filter fun e => match e with
    | FinderEvent.improveCall _ _ _ _ => true
    | _ => false).length

lemma countImprove_append (a b : List FinderEvent) :
    countImprove (a ++ b) = countImprove a + countImprove b := by
  simp [countImprove, List.filter_append]

lemma countImprove_iterBlock (env : FinderEnv) (c s : String) (k : Nat) :
    countImprove (iterBlock env c s k) = 1 := rfl

lemma countImprove_blocks (env : FinderEnv) (c s : String) :
    ∀ (n a : Nat),
      countImprove ((List.range' a n).flatMap (iterBlock env c s)) = n := by
  intro n
  induction n with
  | zero => intro a; rfl
  | succ n ih =>
    intro a
    rw [List.range'_succ, List.flatMap_cons, countImprove_append,
      countImprove_iterBlock, ih (a + 1)]
    omega

lemma Main.tuning_loop_iteration_mono (env : FinderEnv) (c s : String) (th : Int) :
    ∀ (b : Nat) (st : LoopState),
      st.iteration ≤ (Main.tuning_loop env c s th b st).iteration := by
  intro b
  induction b with
  | zero => intro st; exact Nat.le_refl _
  | succ b ih =>
    intro st
    simp only [Main.tuning_loop]
    split
    · have h1 : (Main.loopStep env c s st).iteration = st.iteration + 1 := rfl
      have h2 := ih (Main.loopStep env c s st)
      omega
    · exact Nat.le_refl _

lemma Main.tuning_loop_iteration_le (env : FinderEnv) (c s : String) (th : Int) :
    ∀ (b : Nat) (st : LoopState),
      (Main.tuning_loop env c s th b st).iteration ≤ st.iteration + b := by
  intro b
  induction b with
  | zero => intro st; simp [Main.tuning_loop]
  | succ b ih =>
    intro st
    simp only [Main.tuning_loop]
    split
    · have h1 : (Main.loopStep env c s st).iteration = st.iteration + 1 := rfl
      have h2 := ih (Main.loopStep env c s st)
      omega
    · omega

lemma Main.tuning_loop_invariant (env : FinderEnv) (c s : String) (th : Int) :
    ∀ (b : Nat) (st : LoopState),
      st.scraping = env.scrape st.iteration →
      st.validation = valAt env st.iteration →
      (Main.tuning_loop env c s th b st).scraping
          = env.scrape (Main.tuning_loop env c s th b st).iteration ∧
      (Main.tuning_loop env c s th b st).validation
          = valAt env (Main.tuning_loop env c s th b st).iteration := by
  intro b
  induction b with
  | zero => intro st h1 h2; exact ⟨h1, h2⟩
  | succ b ih =>
    intro st h1 h2
    simp only [Main.tuning_loop]
    split
    · exact ih (Main.loopStep env c s st) rfl rfl
    · exact ⟨h1, h2⟩

lemma Main.tuning_loop_le_iff (env : FinderEnv) (c s : String) (th : Int) :
    ∀ (b : Nat) (st : LoopState),
      st.scraping = env.scrape st.iteration →
      st.validation = valAt env st.iteration →
      ∀ k, st.iteration < k → k ≤ st.iteration + b →
      (k ≤ (Main.tuning_loop env c s th b st).iteration ↔
        ∀ j, st.iteration ≤ j → j < k →
          validationFailed th (valAt env j) = true) := by
  intro b
  induction b with
  | zero => intro st h1 h2 k hk1 hk2; omega
  | succ b ih =>
    intro st h1 h2 k hk1 hk2
    simp only [Main.tuning_loop]
    split
    case isTrue hfail =>
      rcases Nat.lt_or_ge (st.iteration + 1) k with hlt | hge
      · have hstep : (Main.loopStep env c s st).iteration = st.iteration + 1 := rfl
        have step_iff := ih (Main.loopStep env c s st) rfl rfl k
          (by rw [hstep]; exact hlt) (by rw [hstep]; omega)
        rw [hstep] at step_iff
        rw [step_iff]
        constructor
        · intro hall j hj1 hj2
          rcases Nat.eq_or_lt_of_le hj1 with hj | hj
          · rw [← hj, ← h2]; exact hfail
          · exact hall j hj hj2
        · intro hall j hj1 hj2
          exact hall j (Nat.le_of_succ_le hj1) hj2
      · have hk : k = st.iteration + 1 := by omega
        subst hk
        constructor
        · intro _ j hj1 hj2
          have hj : j = st.iteration := by omega
          rw [hj, ← h2]; exact hfail
        · intro _
          have hmono := Main.tuning_loop_iteration_mono env c s th b
            (Main.loopStep env c s st)
          have hstep : (Main.loopStep env c s st).iteration = st.iteration + 1 := rfl
          omega
    case isFalse hfail =>
      have hfl : validationFailed th st.validation = false := by
        revert hfail
        cases validationFailed th st.validation <;> simp
      constructor
      · intro hle; omega
      · intro hall
        have hone := hall st.iteration (Nat.le_refl _) hk1
        rw [← h2, hfl] at hone
        cases hone

lemma Main.tuning_loop_trace (env : FinderEnv) (c s : String) (th : Int) :
    ∀ (b : Nat) (st : LoopState),
      st.scraping = env.scrape st.iteration →
      st.validation = valAt env st.iteration →
      (Main.tuning_loop env c s th b st).trace = st.trace ++
        (List.range' st.iteration
          ((Main.tuning_loop env c s th b st).iteration - st.iteration)).flatMap
          (iterBlock env c s) := by
  intro b
  induction b with
  | zero => intro st h1 h2; simp [Main.tuning_loop]
  | succ b ih =>
    intro st h1 h2
    simp only [Main.tuning_loop]
    split
    case isTrue hfail =>
      have hstep : (Main.loopStep env c s st).iteration = st.iteration + 1 := rfl
      have hmono := Main.tuning_loop_iteration_mono env c s th b
        (Main.loopStep env c s st)
      have htr := ih (Main.loopStep env c s st) rfl rfl
      rw [htr]
      have hn : (Main.tuning_loop env c s th b (Main.loopStep env c s st)).iteration
          - st.iteration
          = ((Main.tuning_loop env c s th b (Main.loopStep env c s st)).iteration
              - (st.iteration + 1)) + 1 := by
        rw [hstep] at hmono; omega
      rw [hn, List.range'_succ, List.flatMap_cons, hstep]
      have hblock : (Main.loopStep env c s st).trace
          = st.trace ++ iterBlock env c s st.iteration := by
        simp only [Main.loopStep, iterBlock, valAt, h1, h2]
      rw [hblock, List.append_assoc]
    case isFalse hfail =>
      simp

lemma Main.tuning_loop_obs (env1 env2 : FinderEnv) (c s : String) (th : Int)
    (hs : env1.scrape = env2.scrape) (hv : env1.validate = env2.validate) :
    ∀ (b : Nat) (st1 st2 : LoopState), st1.obs = st2.obs →
      (Main.tuning_loop env1 c s th b st1).obs
        = (Main.tuning_loop env2 c s th b st2).obs := by
  intro b
  induction b with
  | zero => intro st1 st2 h; simpa [Main.tuning_loop] using h
  | succ b ih =>
    intro st1 st2 hobs
    obtain ⟨hi, hsc, hva, htr⟩ : st1.iteration = st2.iteration ∧
        st1.scraping = st2.scraping ∧ st1.validation = st2.validation ∧
        st1.trace = st2.trace := by
      simpa [LoopState.obs, Prod.ext_iff] using hobs
    simp only [Main.tuning_loop]
    rw [hva]
    by_cases hcond : validationFailed th st2.validation = true
    · rw [if_pos hcond, if_pos hcond]
      apply ih
      simp only [Main.loopStep, LoopState.obs, hi, hsc, hva, htr, hs, hv]
    · rw [if_neg hcond, if_neg hcond]
      exact hobs

lemma tuning_loops_eq (env : FinderEnv) (c s : String) (th : Int) :
    ∀ (b : Nat) (st : LoopState),
      Main.tuning_loop env c s th b st
        = ClaudeChallengeCode.tuning_loop env c s th b st := by
  intro b
  induction b with
  | zero => intro st; rfl
  | succ b ih =>
    intro st
    simp only [Main.tuning_loop, ClaudeChallengeCode.tuning_loop]
    by_cases hcond : validationFailed th st.validation = true
    · rw [if_pos hcond, if_pos hcond]
      exact ih (Main.loopStep env c s st)
    · rw [if_neg hcond, if_neg hcond]

/-- The loop state at the entry of the while loop of `find_financial_source`:
iteration 0, the initial scraping result and its validation. -/
def Main.initState (env : FinderEnv) (tuner0 : PromptTunerState)
    (company source : String) : LoopState :=
  { iteration := 0, scraping := env.scrape 0,
    validation := env.validate 0 (env.scrape 0), tuner := tuner0,
    trace := [FinderEvent.scrapeCall company source (env.scrape 0),
              FinderEvent.validateCall company source (env.scrape 0)
                (env.validate 0 (env.scrape 0))] }

/-- The loop state after the while loop of `find_financial_source`. -/
def Main.finState (env : FinderEnv) (tuner0 : PromptTunerState)
    (company source : String) (maxIter : Nat) (threshold : Int) : LoopState :=
  Main.tuning_loop env company source threshold maxIter
    (Main.initState env tuner0 company source)

lemma Main.find_snd (env : FinderEnv) (tuner0 : PromptTunerState)
    (c s : String) (m : Nat) (th : Int) :
    (Main.find_financial_source env tuner0 c s m th).2
      = Main.finState env tuner0 c s m th := rfl

lemma Main.find_fst (env : FinderEnv) (tuner0 : PromptTunerState)
    (c s : String) (m : Nat) (th : Int) :
    (Main.find_financial_source env tuner0 c s m th).1
      = { company_name := c, source_type := s,
          url := (Main.finState env tuner0 c s m th).scraping.url,
          year := (Main.finState env tuner0 c s m th).scraping.year,
          source_description :=
            (Main.finState env tuner0 c s m th).scraping.source_description,
          confidence := (Main.finState env tuner0 c s m th).scraping.confidence,
          validation_score :=
            (Main.finState env tuner0 c s m th).validation.validation_score.getD 0,
          is_valid :=
            (Main.finState env tuner0 c s m th).validation.is_valid.getD false,
          tuning_iterations := (Main.finState env tuner0 c s m th).iteration,
          feedback :=
            (Main.finState env tuner0 c s m th).validation.feedback.getD "" } := rfl

lemma Main.find_tuning_iterations (env : FinderEnv) (tuner0 : PromptTunerState)
    (c s : String) (m : Nat) (th : Int) :
    (Main.find_financial_source env tuner0 c s m th).1.tuning_iterations
      = (Main.finState env tuner0 c s m th).iteration := rfl

/-- Default value of `max_tuning_iterations` in the constructor of
`FinancialSourcesFinder` (main.py line 30). -/
def default_max_tuning_iterations : Nat := 3

/-- Default value of `validation_threshold` in the constructor of
`FinancialSourcesFinder` (main.py line 30). -/
def default_validation_threshold : Int := 80

/-- C1: for every execution of `FinancialSourcesFinder.find_financial_source`,
whatever values the scraper and validator return, the retry/tuning loop
performs at most `max_tuning_iterations` iterations (default 3) and then
terminates (the embedding is a total function), and the tuning_iterations
field of the returned result never exceeds `max_tuning_iterations`.  The
number of tuning iterations performed is witnessed by the number of
`improveCall` events in the call trace, which equals tuning_iterations. -/
theorem find_financial_source_tuning_bounded (env : FinderEnv)
    (tuner0 : PromptTunerState) (c s : String) (m : Nat) (th : Int) :
    (Main.find_financial_source env tuner0 c s m th).1.tuning_iterations ≤ m ∧
    countImprove (Main.find_financial_source env tuner0 c s m th).2.trace
      = (Main.find_financial_source env tuner0 c s m th).1.tuning_iterations ∧
    default_max_tuning_iterations = 3 := by
  refine ⟨?_, ?_, rfl⟩
  · rw [Main.find_tuning_iterations]
    have h := Main.tuning_loop_iteration_le env c s th m
      (Main.initState env tuner0 c s)
    have h0 : (Main.initState env tuner0 c s).iteration = 0 := rfl
    rw [Main.finState]
    omega
  · rw [Main.find_snd, Main.find_tuning_iterations, Main.finState]
    have htr := Main.tuning_loop_trace env c s th m
      (Main.initState env tuner0 c s) rfl rfl
    rw [htr, countImprove_append]
    have h0 : countImprove (Main.initState env tuner0 c s).trace = 0 := rfl
    have h1 : (Main.initState env tuner0 c s).iteration = 0 := rfl
    rw [h0, h1, countImprove_blocks]
    omega

/-- C2: a tuning iteration is entered exactly when the preceding validation
failed against the threshold.  First conjunct: for every k between 1 and the
iteration bound, the loop body runs a k-th time iff every one of the first k
validation results is invalid or scores below the threshold (missing keys
counting as False and 0, per `validationFailed`).  Second conjunct: the loop
exits before exhausting the iteration bound as soon as a validation result is
valid with a score at or above the threshold. -/
theorem find_financial_source_guard_iff (env : FinderEnv)
    (tuner0 : PromptTunerState) (c s : String) (m : Nat) (th : Int) :
    (∀ k, 1 ≤ k → k ≤ m →
      ((k ≤ (Main.find_financial_source env tuner0 c s m th).1.tuning_iterations)
        ↔ (∀ j, j < k → validationFailed th (valAt env j) = true))) ∧
    (∀ j, j < m →
      (∀ i, i < j → validationFailed th (valAt env i) = true) →
      validationFailed th (valAt env j) = false →
      (Main.find_financial_source env tuner0 c s m th).1.tuning_iterations = j) := by
  have h0 : (Main.initState env tuner0 c s).iteration = 0 := rfl
  have hiff : ∀ k, 1 ≤ k → k ≤ m →
      ((k ≤ (Main.find_financial_source env tuner0 c s m th).1.tuning_iterations)
        ↔ (∀ j, j < k → validationFailed th (valAt env j) = true)) := by
    intro k hk1 hk2
    rw [Main.find_tuning_iterations, Main.finState]
    have hle := Main.tuning_loop_le_iff env c s th m
      (Main.initState env tuner0 c s) rfl rfl k (by omega) (by omega)
    rw [h0] at hle
    rw [hle]
    constructor
    · intro hall j hj; exact hall j (Nat.zero_le j) hj
    · intro hall j _ hj; exact hall j hj
  refine ⟨hiff, ?_⟩
  intro j hjm hprev hfail
  have hub : ¬(j + 1 ≤
      (Main.find_financial_source env tuner0 c s m th).1.tuning_iterations) := by
    intro hle
    have hj := (hiff (j + 1) (by omega) (by omega)).mp hle j (by omega)
    rw [hj] at hfail
    cases hfail
  have hlb : j ≤
      (Main.find_financial_source env tuner0 c s m th).1.tuning_iterations := by
    rcases Nat.eq_zero_or_pos j with hj0 | hjpos
    · omega
    · exact (hiff j hjpos (by omega)).mpr (fun i hi => hprev i hi)
  omega

/-- C4: the call trace of `find_financial_source` is exactly the initial
scrape and validation followed by, for each performed tuning iteration k,
the three calls improve_prompt, scrape_financial_sources, validate_result in
this order, where improve_prompt receives the scraping and validation results
of the previous iteration (`iterBlock`), and the validation result of each
iteration is the one the next iteration guard and improve_prompt call use. -/
theorem find_financial_source_trace (env : FinderEnv)
    (tuner0 : PromptTunerState) (c s : String) (m : Nat) (th : Int) :
    (Main.find_financial_source env tuner0 c s m th).2.trace =
      [FinderEvent.scrapeCall c s (env.scrape 0),
       FinderEvent.validateCall c s (env.scrape 0) (valAt env 0)] ++
      (List.range' 0
        (Main.find_financial_source env tuner0 c s m th).1.tuning_iterations).flatMap
        (iterBlock env c s) := by
  rw [Main.find_snd, Main.find_tuning_iterations, Main.finState]
  have htr := Main.tuning_loop_trace env c s th m
    (Main.initState env tuner0 c s) rfl rfl
  rw [htr]
  have h0 : (Main.initState env tuner0 c s).iteration = 0 := rfl
  rw [h0, Nat.sub_zero]
  rfl

/-- A concrete scraping outcome used in concrete executions below. -/
def wScrapingResult : ScrapingResult :=
  { url := some "https://www.example.com/annual-report-2023.pdf",
    year := some "2023", source_description := some "Annual Report PDF",
    confidence := some "ALTA" }

/-- A concrete failing validation outcome. -/
def wBadValidation : ValidationResult :=
  { is_valid := some false, validation_score := some 10,
    feedback := some "wrong document", improvement_suggestions := some "retry" }

/-- A concrete passing validation outcome. -/
def wGoodValidation : ValidationResult :=
  { is_valid := some true, validation_score := some 95,
    feedback := some "good", improvement_suggestions := some "none" }

/-- A concrete initial prompt tuner state. -/
def wTuner : PromptTunerState :=
  { current_prompt := "BASE PROMPT", tuning_history := [] }

/-- A concrete environment whose validation fails on call 0 and passes from
call 1 on. -/
def w2Env : FinderEnv :=
  { scrape := fun _ => wScrapingResult,
    validate := fun k _ => if k = 0 then wBadValidation else wGoodValidation,
    tune := fun _ => some "TUNED PROMPT", timestamp := fun _ => "2025-01-01" }

/-- Witness for C2 at a concrete input: with the first validation failing and
the second passing, the loop runs exactly one tuning iteration. -/
theorem find_financial_source_guard_iff_witness :
    ((1 ≤ (Main.find_financial_source w2Env wTuner "ACME" "Annual Report"
        3 80).1.tuning_iterations)
      ↔ (∀ j, j < 1 → validationFailed 80 (valAt w2Env j) = true)) ∧
    (Main.find_financial_source w2Env wTuner "ACME" "Annual Report"
        3 80).1.tuning_iterations = 1 :=
  ⟨(find_financial_source_guard_iff w2Env wTuner "ACME" "Annual Report" 3 80).1
      1 (by decide) (by decide),
   (find_financial_source_guard_iff w2Env wTuner "ACME" "Annual Report" 3 80).2
      1 (by decide)
      (fun i hi => by
        have hi0 : i = 0 := by omega
        subst hi0
        decide)
      (by decide)⟩

/-- Amendment of C3: the rescrape does not use the tuned prompt.
`WebScraperModule.scrape_financial_sources` takes only the company name and
the source type (claude_challenge_code.py line 468) and its class holds no
reference to the prompt tuner, so two runs of `find_financial_source` that
agree on the scraper and validator oracles but differ arbitrarily in the
prompt tuner LLM outcomes and in the initial prompt produce the same final
result and the same call trace — the rescrape result is independent of the
tuned prompt. -/
theorem rescrape_independent_of_tuned_prompt (env1 env2 : FinderEnv)
    (tuner1 tuner2 : PromptTunerState) (c s : String) (m : Nat) (th : Int)
    (hs : env1.scrape = env2.scrape) (hv : env1.validate = env2.validate) :
    (Main.find_financial_source env1 tuner1 c s m th).1
      = (Main.find_financial_source env2 tuner2 c s m th).1 ∧
    (Main.find_financial_source env1 tuner1 c s m th).2.trace
      = (Main.find_financial_source env2 tuner2 c s m th).2.trace := by
  have hobs := Main.tuning_loop_obs env1 env2 c s th hs hv m
    (Main.initState env1 tuner1 c s) (Main.initState env2 tuner2 c s)
    (by simp [Main.initState, LoopState.obs, hs, hv])
  obtain ⟨hi, hsc, hva, htr⟩ :
      (Main.finState env1 tuner1 c s m th).iteration
        = (Main.finState env2 tuner2 c s m th).iteration ∧
      (Main.finState env1 tuner1 c s m th).scraping
        = (Main.finState env2 tuner2 c s m th).scraping ∧
      (Main.finState env1 tuner1 c s m th).validation
        = (Main.finState env2 tuner2 c s m th).validation ∧
      (Main.finState env1 tuner1 c s m th).trace
        = (Main.finState env2 tuner2 c s m th).trace := by
    simpa [LoopState.obs, Prod.ext_iff, Main.finState] using hobs
  constructor
  · rw [Main.find_fst, Main.find_fst, hi, hsc, hva]
  · rw [Main.find_snd, Main.find_snd, htr]

/-- Environment for the C3 counterexample whose prompt tuning returns
PROMPT VARIANT ONE and whose validation always fails, so that tuning
iterations occur. -/
def cexEnvA : FinderEnv :=
  { scrape := fun _ => wScrapingResult,
    validate := fun _ _ => wBadValidation,
    tune := fun _ => some "PROMPT VARIANT ONE",
    timestamp := fun _ => "2025-01-01" }

/-- Same as `cexEnvA` except that prompt tuning returns PROMPT VARIANT TWO. -/
def cexEnvB : FinderEnv :=
  { scrape := fun _ => wScrapingResult,
    validate := fun _ _ => wBadValidation,
    tune := fun _ => some "PROMPT VARIANT TWO",
    timestamp := fun _ => "2025-01-01" }

/-- Counterexample to C3 as stated: two concrete runs that differ only in the
prompt the LLM tuning call produces (the tuner ends with different
current_prompt values, so the prompts genuinely differ and tuning iterations
genuinely ran) have identical call traces — in particular every rescrape call
returns the same result — and identical final results. -/
theorem rescrape_ignores_tuned_prompt_cex :
    (Main.find_financial_source cexEnvA wTuner "ACME" "Annual Report"
        3 80).2.tuner.current_prompt = "PROMPT VARIANT ONE" ∧
    (Main.find_financial_source cexEnvB wTuner "ACME" "Annual Report"
        3 80).2.tuner.current_prompt = "PROMPT VARIANT TWO" ∧
    (Main.find_financial_source cexEnvA wTuner "ACME" "Annual Report"
        3 80).1.tuning_iterations = 3 ∧
    (Main.find_financial_source cexEnvA wTuner "ACME" "Annual Report"
        3 80).2.trace
      = (Main.find_financial_source cexEnvB wTuner "ACME" "Annual Report"
        3 80).2.trace ∧
    (Main.find_financial_source cexEnvA wTuner "ACME" "Annual Report" 3 80).1
      = (Main.find_financial_source cexEnvB wTuner "ACME" "Annual Report"
        3 80).1 := by
  refine ⟨?_, ?_, ?_, ?_, ?_⟩ <;> decide

/-- Witness for the amended C3 at a concrete input: the two concrete
environments that differ only in the tuned prompt yield equal final results
and traces. -/
theorem rescrape_independent_of_tuned_prompt_witness :
    (Main.find_financial_source cexEnvA wTuner "ACME" "Annual Report" 3 80).1
      = (Main.find_financial_source cexEnvB wTuner "ACME" "Annual Report"
          3 80).1 ∧
    (Main.find_financial_source cexEnvA wTuner "ACME" "Annual Report"
        3 80).2.trace
      = (Main.find_financial_source cexEnvB wTuner "ACME" "Annual Report"
          3 80).2.trace :=
  rescrape_independent_of_tuned_prompt cexEnvA cexEnvB wTuner wTuner
    "ACME" "Annual Report" 3 80 rfl rfl

/-- C5: the duplicated versions of
`FinancialSourcesFinder.find_financial_source` in main.py and in
claude_challenge_code.py are behaviorally equivalent: on the same oracle
environment, initial tuner state and arguments they return the same final
result and the same final loop state. -/
theorem find_financial_source_versions_eq (env : FinderEnv)
    (tuner0 : PromptTunerState) (c s : String) (m : Nat) (th : Int) :
    Main.find_financial_source env tuner0 c s m th
      = ClaudeChallengeCode.find_financial_source env tuner0 c s m th := by
  simp only [Main.find_financial_source, ClaudeChallengeCode.find_financial_source]
  rw [tuning_loops_eq]

/-- C6: `PromptTuner.improve_prompt` postcondition.  If the LLM call returns
a response with text `text`, the current prompt becomes the stripped text,
exactly one record whose old_prompt field is the previous prompt is appended
to tuning_history, and the new prompt is returned.  If the LLM call raises,
the tuner state is left unchanged and the existing current prompt is
returned. -/
theorem improve_prompt_state_contract (st : PromptTunerState) (c s : String)
    (scr : ScrapingResult) (v : ValidationResult) (ts : String) :
    (∀ text : String,
      (improve_prompt st c s scr v (some text) ts).1.current_prompt = pyStrip text ∧
      (improve_prompt st c s scr v (some text) ts).2 = pyStrip text ∧
      ∃ r : TuningRecord,
        (improve_prompt st c s scr v (some text) ts).1.tuning_history
          = st.tuning_history ++ [r] ∧
        r.old_prompt = st.current_prompt ∧
        r.new_prompt = pyStrip text) ∧
    (improve_prompt st c s scr v none ts).1 = st ∧
    (improve_prompt st c s scr v none ts).2 = st.current_prompt := by
  refine ⟨fun text => ⟨rfl, rfl,
    ⟨{ company := c, old_prompt := st.current_prompt,
       new_prompt := pyStrip text, scraping_result := scr,
       validation_result := v, timestamp := ts }, rfl, rfl, rfl⟩⟩, rfl, rfl⟩

/-- Outcome of one HTTP attempt inside `WebScraperModule.get_page`
(claude_challenge_code.py lines 85-96): either `self.session.get` (or the
surrounding body) raises, or it returns a response with a status code and a
body text. -/
inductive HttpAttempt where
  | raise
  | response (status : Nat) (body : String)
deriving DecidableEq, Repr

/-- One attempt of the body of `get_page`: on a response, return the body
text exactly when the status code is 200 and None otherwise; on an
exception, re-raise so that the retry decorator sees it (lines 89-96). -/
def get_page_attempt : HttpAttempt → Except Unit (Option String)
  | HttpAttempt.raise => Except.error ()
  | HttpAttempt.response status body =>
      Except.ok (if status = 200 then some body else none)

/-- The parameters of the `@retry` decorator on `get_page`
(claude_challenge_code.py line 74). -/
structure RetryConfig where
  tries : Nat
  delay : Nat
  backoff : Nat
  jitter : Nat
deriving DecidableEq, Repr

/-- `@retry(tries=5, delay=3, backoff=2, jitter=1)` of line 74. -/
def get_page_retry_config : RetryConfig :=
  { tries := 5, delay := 3, backoff := 2, jitter := 1 }

/-- The loop of the `retry` package: run the function; on an exception
decrement the remaining tries, re-raising when they are exhausted, otherwise
sleep and try again.  `att k` is the outcome of the k-th HTTP attempt
(an oracle); `t` is the number of tries remaining. -/
def retry_go (att : Nat → HttpAttempt) : Nat → Nat → Except Unit (Option String)
  | _, 0 => Except.error ()
  | k, t + 1 =>
    match att k with
    | HttpAttempt.raise =>
        if t = 0 then Except.error () else retry_go att (k + 1) t
    | HttpAttempt.response status body =>
        get_page_attempt (HttpAttempt.response status body)

/-- `WebScraperModule.get_page` as seen by its caller: the body under the
retry decorator with tries = 5. -/
def get_page (att : Nat → HttpAttempt) : Except Unit (Option String) :=
  retry_go att 0 get_page_retry_config.tries

lemma retry_go_success (att : Nat → HttpAttempt) :
    ∀ (t k0 k : Nat) (status : Nat) (body : String), k0 ≤ k → k < k0 + t →
      (∀ j, k0 ≤ j → j < k → att j = HttpAttempt.raise) →
      att k = HttpAttempt.response status body →
      retry_go att k0 t
        = Except.ok (if status = 200 then some body else none) := by
  intro t
  induction t with
  | zero => intro k0 k status body h1 h2 h3 h4; omega
  | succ t ih =>
    intro k0 k status body h1 h2 h3 h4
    rcases Nat.eq_or_lt_of_le h1 with he | hlt
    · subst he
      simp only [retry_go, h4, get_page_attempt]
    · have hr : att k0 = HttpAttempt.raise := h3 k0 (Nat.le_refl _) hlt
      have ht : t ≠ 0 := by omega
      simp only [retry_go, hr, if_neg ht]
      exact ih (k0 + 1) k status body hlt (by omega)
        (fun j hj1 hj2 => h3 j (by omega) hj2) h4

lemma retry_go_error_iff (att : Nat → HttpAttempt) :
    ∀ (t k0 : Nat),
      (retry_go att k0 t = Except.error () ↔
        ∀ k, k0 ≤ k → k < k0 + t → att k = HttpAttempt.raise) := by
  intro t
  induction t with
  | zero =>
    intro k0
    constructor
    · intro _ k hk1 hk2; omega
    · intro _; rfl
  | succ t ih =>
    intro k0
    cases hr : att k0 with
    | raise =>
      rcases Nat.eq_zero_or_pos t with ht | ht
      · subst ht
        simp only [retry_go, hr, if_pos rfl]
        constructor
        · intro _ k hk1 hk2
          have : k = k0 := by omega
          rw [this]; exact hr
        · intro _; rfl
      · have ht' : t ≠ 0 := by omega
        simp only [retry_go, hr, if_neg ht']
        rw [ih (k0 + 1)]
        constructor
        · intro hall k hk1 hk2
          rcases Nat.eq_or_lt_of_le hk1 with he | hlt
          · rw [← he]; exact hr
          · exact hall k hlt (by omega)
        · intro hall k hk1 hk2
          exact hall k (by omega) (by omega)
    | response status body =>
      simp only [retry_go, hr, get_page_attempt]
      constructor
      · intro hco; cases hco
      · intro hall
        have := hall k0 (Nat.le_refl _) (by omega)
        rw [hr] at this
        cases this

/-- C8: `WebScraperModule.get_page` returns the HTTP response body exactly
when the response status code is 200 and None for every other status code;
when the underlying request raises an exception, the call is retried (with
decorator parameters delay 3 and backoff 2), up to 5 tries in total, and the
exception propagates to the caller iff the first 5 attempts all raise. -/
theorem get_page_spec (att : Nat → HttpAttempt) :
    (∀ (k status : Nat) (body : String), k < 5 →
      (∀ j, j < k → att j = HttpAttempt.raise) →
      att k = HttpAttempt.response status body →
      get_page att = Except.ok (if status = 200 then some body else none)) ∧
    (get_page att = Except.error () ↔
      ∀ k, k < 5 → att k = HttpAttempt.raise) ∧
    get_page_retry_config.tries = 5 ∧ get_page_retry_config.delay = 3 ∧
    get_page_retry_config.backoff = 2 := by
  refine ⟨?_, ?_, rfl, rfl, rfl⟩
  · intro k status body hk hprev hresp
    exact retry_go_success att 5 0 k status body (Nat.zero_le k) (by omega)
      (fun j _ hj => hprev j hj) hresp
  · rw [get_page, show get_page_retry_config.tries = 5 from rfl,
      retry_go_error_iff att 5 0]
    constructor
    · intro hall k hk; exact hall k (Nat.zero_le k) (by omega)
    · intro hall k _ hk; exact hall k (by omega)

/-- A concrete attempt oracle: the first HTTP attempt raises, the second
returns status 200 with body BODY. -/
def w8att : Nat → HttpAttempt := fun k =>
  if k = 0 then HttpAttempt.raise else HttpAttempt.response 200 "BODY"

/-- Witness for C8 at a concrete input: one exception followed by a 200
response makes `get_page` return the body after one retry. -/
theorem get_page_spec_witness : get_page w8att = Except.ok (some "BODY") := by
  have h := (get_page_spec w8att).1 1 200 "BODY" (by decide)
    (fun j hj => by
      have hj0 : j = 0 := by omega
      subst hj0
      rfl)
    (by rfl)
  simpa using h

/-- The names defined at top level of src/Data_Discovery/utils.py
(line 8: the only def is the misspelled laod_config_yaml). -/
def utils_module_defs : List String := ["laod_config_yaml"]

/-- The names that src/Data_Discovery/model/result_validator.py imports from
the utils module (line 10: from utils import load_config_yaml). -/
def result_validator_utils_names : List String := ["load_config_yaml"]

/-- Python resolves `from utils import name` when the importing module is
loaded: the load succeeds only if every imported name is bound at top level
of utils; otherwise an ImportError is raised before any code of the
module that imports it runs, so no ResultValidator can be constructed
from it. -/
def result_validator_module_loads : Bool :=
  result_validator_utils_names.all (fun n => utils_module_defs.contains n)

/-- C10: `load_config_yaml` as imported by model/result_validator.py does
not exist in utils.py, which defines only the misspelled `laod_config_yaml`,
so loading the result_validator module fails before any validation can
run. -/
theorem result_validator_import_broken :
    result_validator_module_loads = false ∧
    "load_config_yaml" ∉ utils_module_defs ∧
    "laod_config_yaml" ∈ utils_module_defs := by
  refine ⟨rfl, ?_, ?_⟩ <;> decide

/-- A Python value as produced by `json.loads`: None, booleans, numbers
(integer part suffices here), strings, lists and dicts. -/
inductive Json where
  | null
  | bool (b : Bool)
  | num (n : Int)
  | str (s : String)
  | arr (elts : List Json)
  | obj (kvs : List (String × Json))

/-- Python truthiness of a `json.loads` value: None, False, 0, the empty
string, the empty list and the empty dict are falsy; everything else is
truthy.  This is what `if not validation_result:` tests. -/
def Json.truthy : Json → Bool
  | Json.null => false
  | Json.bool b => b
  | Json.num n => decide (n ≠ 0)
  | Json.str s => decide (s ≠ "")
  | Json.arr elts => !elts.isEmpty
  | Json.obj kvs => !kvs.isEmpty

/-- Whether a parsed value is a dict containing the given key. -/
def Json.hasKey : Json → String → Bool
  | Json.obj kvs, k => kvs.any (fun p => p.1 == k)
  | _, _ => false

/-- Whether a parsed value is a Python dict. -/
def Json.isObj : Json → Bool
  | Json.obj _ => true
  | _ => false

/-- `dict.get(key)` on a parsed value that is a dict; `none` on a missing
key or a non-dict. -/
def Json.getKey : Json → String → Option Json
  | Json.obj kvs, k => (kvs.find? (fun p => p.1 == k)).map Prod.snd
  | _, _ => none

/-- The Python type name of a parsed value, as it appears in the
AttributeError raised when `.get` is called on a non-dict. -/
def pyTypeName : Json → String
  | Json.null => "NoneType"
  | Json.bool _ => "bool"
  | Json.num _ => "int"
  | Json.str _ => "str"
  | Json.arr _ => "list"
  | Json.obj _ => "dict"

/-- The error dict built by `validate_result` in its exception and
no-response branches (claude_challenge_code.py lines 1211-1216 and
1219-1224), parametrized by the feedback text. -/
def error_validation_dict (feedback suggestions : String) : Json :=
  Json.obj [("is_valid", Json.bool false),
            ("validation_score", Json.num 0),
            ("feedback", Json.str feedback),
            ("improvement_suggestions", Json.str suggestions)]

/-- The replacement dict used when the response text yields no truthy parse
result (claude_challenge_code.py lines 1199-1204). -/
def unparsed_validation_dict : Json :=
  error_validation_dict "Impossibile analizzare la risposta di validazione"
    "Riprova con un prompt più chiaro"

/-- Outcome of the Gemini call inside `validate_result`: the call raises
with message `msg`, or returns a falsy response object, or returns a
response whose `.text` is `text`. -/
inductive GeminiOutcome where
  | raise (msg : String)
  | noResponse
  | response (text : String)

/-- `ResultValidator.validate_result` (claude_challenge_code.py lines
1144-1237; model/result_validator.py lines 45-119 has the identical control
flow).  `parse` is the oracle for `_extract_json_from_text` (regex-extract a
braced block and `json.loads` it, `none` when nothing parses; lines
1226-1237).  The whole body after prompt construction runs inside
try/except, so nothing propagates: a raise from the model call returns the
error dict; a falsy response returns the no-response error dict; a parse
that yields nothing truthy is replaced by `unparsed_validation_dict`; a
truthy parsed dict is returned as is; and a truthy parsed non-dict raises
AttributeError at the `logger.info(... validation_result.get(...))` call on
line 1205-1207, which the same except-branch turns into the error dict. -/
def validate_result (parse : String → Option Json) (company source : String)
    (scraping : ScrapingResult) (outcome : GeminiOutcome) : Json :=
  match outcome with
  | GeminiOutcome.raise msg =>
      error_validation_dict ("Errore durante la validazione: " ++ msg)
        "Verifica la connessione e riprova"
  | GeminiOutcome.noResponse =>
      error_validation_dict "Errore API Gemini: Nessuna risposta ricevuta"
        "Verifica la connessione e riprova"
  | GeminiOutcome.response text =>
      let vr : Json :=
        match parse text with
        | none => unparsed_validation_dict
        | some j => if j.truthy then j else unparsed_validation_dict
      match vr with
      | Json.obj kvs => Json.obj kvs
      | j =>
          error_validation_dict
            ("Errore durante la validazione: AttributeError: "
              ++ pyTypeName j ++ " object has no attribute get")
            "Verifica la connessione e riprova"

/-- The four keys the spec requires of a validation dict. -/
def validation_keys : List String :=
  ["is_valid", "validation_score", "feedback", "improvement_suggestions"]

lemma error_validation_dict_keys (fb sg : String) :
    (∀ k, k ∈ validation_keys → (error_validation_dict fb sg).hasKey k = true) ∧
    (error_validation_dict fb sg).getKey "is_valid" = some (Json.bool false) ∧
    (error_validation_dict fb sg).getKey "validation_score"
      = some (Json.num 0) := by
  refine ⟨?_, rfl, rfl⟩
  intro k hk
  simp only [validation_keys, List.mem_cons, List.not_mem_nil, or_false] at hk
  rcases hk with h | h | h | h <;> subst h <;> rfl

/-- Amendment of C7: `validate_result` is total — it always returns a dict
and never propagates an exception — and in every error case (LLM raise,
absent response, unparseable or falsy JSON, truthy non-dict JSON) the
returned dict contains all four keys with is_valid False and
validation_score 0, so a failed validation re-enters the tuning loop.  But
when the response parses to a truthy JSON dict, that dict is returned as is
and need not contain the four keys. -/
theorem validate_result_amended (parse : String → Option Json)
    (c s : String) (scr : ScrapingResult) :
    (∀ outcome, (validate_result parse c s scr outcome).isObj = true) ∧
    (∀ outcome, (match outcome with
        | GeminiOutcome.raise _ => True
        | GeminiOutcome.noResponse => True
        | GeminiOutcome.response text =>
            ∀ j, parse text = some j → j.truthy = true →
              ∀ kvs, j ≠ Json.obj kvs) →
      (∀ k, k ∈ validation_keys →
        (validate_result parse c s scr outcome).hasKey k = true) ∧
      (validate_result parse c s scr outcome).getKey "is_valid"
        = some (Json.bool false) ∧
      (validate_result parse c s scr outcome).getKey "validation_score"
        = some (Json.num 0)) ∧
    (∀ text kvs, parse text = some (Json.obj kvs) →
      (Json.obj kvs).truthy = true →
      validate_result parse c s scr (GeminiOutcome.response text)
        = Json.obj kvs) := by
  refine ⟨?_, ?_, ?_⟩
  · intro outcome
    cases outcome with
    | raise msg => rfl
    | noResponse => rfl
    | response text =>
      cases hp : parse text with
      | none => simp only [validate_result, hp]; rfl
      | some j =>
        by_cases ht : j.truthy = true
        · cases j with
          | obj kvs => simp only [validate_result, hp, if_pos ht]; rfl
          | null => simp only [validate_result, hp, if_pos ht]; rfl
          | bool b => simp only [validate_result, hp, if_pos ht]; rfl
          | num n => simp only [validate_result, hp, if_pos ht]; rfl
          | str s => simp only [validate_result, hp, if_pos ht]; rfl
          | arr elts => simp only [validate_result, hp, if_pos ht]; rfl
        · simp only [validate_result, hp, if_neg ht]; rfl
  · intro outcome hnd
    cases outcome with
    | raise msg => exact error_validation_dict_keys _ _
    | noResponse => exact error_validation_dict_keys _ _
    | response text =>
      cases hp : parse text with
      | none =>
        simp only [validate_result, hp]
        exact error_validation_dict_keys _ _
      | some j =>
        by_cases ht : j.truthy = true
        · have hnotobj := hnd j hp ht
          cases j with
          | obj kvs => exact absurd rfl (hnotobj kvs)
          | null =>
            simp only [validate_result, hp, if_pos ht]
            exact error_validation_dict_keys _ _
          | bool b =>
            simp only [validate_result, hp, if_pos ht]
            exact error_validation_dict_keys _ _
          | num n =>
            simp only [validate_result, hp, if_pos ht]
            exact error_validation_dict_keys _ _
          | str s =>
            simp only [validate_result, hp, if_pos ht]
            exact error_validation_dict_keys _ _
          | arr elts =>
            simp only [validate_result, hp, if_pos ht]
            exact error_validation_dict_keys _ _
        · simp only [validate_result, hp, if_neg ht]
          exact error_validation_dict_keys _ _
  · intro text kvs hp ht
    simp only [validate_result, hp, if_pos ht]

/-- The parse oracle of the C7 counterexample: `_extract_json_from_text`
applied to the response text `\x7b"foo": 1\x7d` returns the parsed dict
with the single key foo (this is what `json.loads` yields on it). -/
def cexParse : String → Option Json :=
  fun _ => some (Json.obj [("foo", Json.num 1)])

/-- Counterexample to C7 as stated: when the model response parses to the
truthy dict with single key foo, `validate_result` returns that dict
unchanged, and the returned dict contains none of the four required keys. -/
theorem validate_result_missing_keys_cex :
    validate_result cexParse "ACME" "Annual Report" wScrapingResult
        (GeminiOutcome.response "resp")
      = Json.obj [("foo", Json.num 1)] ∧
    (validate_result cexParse "ACME" "Annual Report" wScrapingResult
        (GeminiOutcome.response "resp")).hasKey "is_valid" = false ∧
    (validate_result cexParse "ACME" "Annual Report" wScrapingResult
        (GeminiOutcome.response "resp")).hasKey "validation_score" = false ∧
    (validate_result cexParse "ACME" "Annual Report" wScrapingResult
        (GeminiOutcome.response "resp")).hasKey "feedback" = false ∧
    (validate_result cexParse "ACME" "Annual Report" wScrapingResult
        (GeminiOutcome.response "resp")).hasKey "improvement_suggestions"
      = false :=
  ⟨rfl, rfl, rfl, rfl, rfl⟩

/-- Witness for the amended C7 at concrete inputs: the raise case returns a
dict carrying all four keys with is_valid False and score 0, and the
passthrough case returns the parsed dict unchanged. -/
theorem validate_result_amended_witness :
    ((validate_result cexParse "ACME" "Annual Report" wScrapingResult
        (GeminiOutcome.raise "boom")).hasKey "is_valid" = true ∧
     (validate_result cexParse "ACME" "Annual Report" wScrapingResult
        (GeminiOutcome.raise "boom")).getKey "is_valid"
        = some (Json.bool false)) ∧
    validate_result cexParse "ACME" "Annual Report" wScrapingResult
        (GeminiOutcome.response "resp")
      = Json.obj [("foo", Json.num 1)] := by
  refine ⟨⟨?_, ?_⟩, ?_⟩
  · exact ((validate_result_amended cexParse "ACME" "Annual Report"
      wScrapingResult).2.1 (GeminiOutcome.raise "boom") trivial).1
      "is_valid" (by simp [validation_keys])
  · exact ((validate_result_amended cexParse "ACME" "Annual Report"
      wScrapingResult).2.1 (GeminiOutcome.raise "boom") trivial).2.1
  · exact (validate_result_amended cexParse "ACME" "Annual Report"
      wScrapingResult).2.2 "resp" [("foo", Json.num 1)] rfl rfl

/-- Whether the regex 20\d\x7b2\x7d matches at the start of the character
list: the next four characters are 2, 0, digit, digit.  (Python \d also
matches non-ASCII decimal digits; the digit class is uniform across the
patterns and the property proved, so the choice does not affect any claim
below.) -/
def p1At : List Char → Bool
  | c1 :: c2 :: c3 :: c4 :: _ =>
      c1 == '2' && c2 == '0' && c3.isDigit && c4.isDigit
  | _ => false

/-- The leftmost match of the year regex in the text, returned as its four
matched characters, or none: this is re.search with the first pattern of
`_extract_year_from_text` followed by .group(0). -/
def searchP1 : List Char → Option (List Char)
  | [] => none
  | c :: cs =>
      if p1At (c :: cs) then some ((c :: cs).take 4) else searchP1 cs

/-- Match of the second pattern FY\s*20\d\x7b2\x7d at the start of the list,
with its group(0).  The greedy \s* must consume the whole whitespace run,
because the character after it has to be the non-whitespace 2. -/
def p2MatchAt (l : List Char) : Option (List Char) :=
  match l with
  | c1 :: c2 :: rest =>
      if c1 == 'F' && c2 == 'Y'
          && p1At (rest.dropWhile Char.isWhitespace) then
        some (c1 :: c2 :: (rest.takeWhile Char.isWhitespace
          ++ (rest.dropWhile Char.isWhitespace).take 4))
      else none
  | _ => none

/-- Leftmost match of the second pattern. -/
def searchP2 : List Char → Option (List Char)
  | [] => none
  | c :: cs =>
      match p2MatchAt (c :: cs) with
      | some m => some m
      | none => searchP2 cs

/-- Whether the third pattern 20\d\x7b2\x7d, a slash or hyphen, then 20\d\x7b2\x7d matches at the
start of the list. -/
def p3At (l : List Char) : Bool :=
  p1At l && (match l.drop 4 with
    | sep :: rest => (sep == '/' || sep == '-') && p1At rest
    | [] => false)

/-- Leftmost match of the third pattern; its group(0) is nine characters. -/
def searchP3 : List Char → Option (List Char)
  | [] => none
  | c :: cs => if p3At (c :: cs) then some ((c :: cs).take 9) else searchP3 cs

/-- `WebScraperModule._extract_year_from_text` (claude_challenge_code.py
lines 377-393): try the three year patterns in order with re.search; on the
first pattern that matches, return the first 20\d\x7b2\x7d inside the
matched text.  The code calls .group(0) on that inner re.search; the inner
search always succeeds because every matched text of the three patterns
contains such a substring (`searchP2_none`, `searchP3_none` make the other
branches unreachable anyway). -/
def extract_year_from_text (s : String) : Option String :=
  match searchP1 s.data with
  | some m => (searchP1 m).map (fun y => String.mk y)
  | none =>
    match searchP2 s.data with
    | some m => (searchP1 m).map (fun y => String.mk y)
    | none =>
      match searchP3 s.data with
      | some m => (searchP1 m).map (fun y => String.mk y)
      | none => none

lemma searchP1_eq_none_iff (cs : List Char) :
    searchP1 cs = none ↔ ∀ i, p1At (cs.drop i) = false := by
  induction cs with
  | nil =>
    constructor
    · intro _ i; rw [List.drop_nil]; rfl
    · intro _; rfl
  | cons c cs ih =>
    by_cases h : p1At (c :: cs) = true
    · simp only [searchP1, if_pos h]
      constructor
      · intro hco; cases hco
      · intro hall
        have h0 := hall 0
        rw [List.drop_zero, h] at h0
        cases h0
    · simp only [searchP1, if_neg h]
      have hfalse : p1At (c :: cs) = false := by
        revert h; cases p1At (c :: cs) <;> simp
      rw [ih]
      constructor
      · intro hall i
        cases i with
        | zero => exact hfalse
        | succ i => exact hall i
      · intro hall i
        exact hall (i + 1)

lemma searchP1_some_spec (cs m : List Char) (h : searchP1 cs = some m) :
    ∃ i, p1At (cs.drop i) = true ∧ m = (cs.drop i).take 4 ∧
      ∀ j, j < i → p1At (cs.drop j) = false := by
  induction cs with
  | nil => simp [searchP1] at h
  | cons c cs ih =>
    by_cases hp : p1At (c :: cs) = true
    · simp only [searchP1, if_pos hp] at h
      refine ⟨0, hp, ?_, ?_⟩
      · injection h with h; exact h.symm
      · intro j hj; exact absurd hj (Nat.not_lt_zero j)
    · simp only [searchP1, if_neg hp] at h
      obtain ⟨i, h1, h2, h3⟩ := ih h
      have hpf : p1At (c :: cs) = false := by
        revert hp; cases p1At (c :: cs) <;> simp
      refine ⟨i + 1, h1, h2, ?_⟩
      intro j hj
      cases j with
      | zero => exact hpf
      | succ j => exact h3 j (by omega)

lemma p1At_shape (l : List Char) (h : p1At l = true) :
    ∃ c3 c4 rest, l = '2' :: '0' :: c3 :: c4 :: rest ∧
      c3.isDigit = true ∧ c4.isDigit = true := by
  rcases l with _ | ⟨c1, _ | ⟨c2, _ | ⟨c3, _ | ⟨c4, rest⟩⟩⟩⟩
  · simp [p1At] at h
  · simp [p1At] at h
  · simp [p1At] at h
  · simp [p1At] at h
  · simp only [p1At, Bool.and_eq_true, beq_iff_eq] at h
    obtain ⟨⟨⟨h1, h2⟩, h3⟩, h4⟩ := h
    exact ⟨c3, c4, rest, by rw [h1, h2], h3, h4⟩

lemma searchP1_some_props (cs m : List Char) (h : searchP1 cs = some m) :
    m.length = 4 ∧ m.take 2 = ['2', '0'] ∧
      ∃ pre post, cs = pre ++ m ++ post := by
  obtain ⟨i, h1, h2, h3⟩ := searchP1_some_spec cs m h
  obtain ⟨c3, c4, rest, he, hd3, hd4⟩ := p1At_shape _ h1
  refine ⟨?_, ?_, ?_⟩
  · rw [h2, he]; rfl
  · rw [h2, he]; rfl
  · refine ⟨cs.take i, (cs.drop i).drop 4, ?_⟩
    rw [h2, List.append_assoc, List.take_append_drop, List.take_append_drop]

lemma dropWhile_eq_drop (p : Char → Bool) (l : List Char) :
    ∃ k, l.dropWhile p = l.drop k := by
  induction l with
  | nil => exact ⟨0, rfl⟩
  | cons c cs ih =>
    by_cases h : p c = true
    · obtain ⟨k, hk⟩ := ih
      refine ⟨k + 1, ?_⟩
      simp only [List.dropWhile, h]
      exact hk
    · refine ⟨0, ?_⟩
      have hf : p c = false := by revert h; cases p c <;> simp
      simp [List.dropWhile, hf]

lemma searchP2_none (cs : List Char)
    (h : ∀ i, p1At (cs.drop i) = false) : searchP2 cs = none := by
  induction cs with
  | nil => rfl
  | cons c cs ih =>
    have hm : p2MatchAt (c :: cs) = none := by
      cases cs with
      | nil => rfl
      | cons c2 rest =>
        have hfl : (c == 'F' && c2 == 'Y'
            && p1At (rest.dropWhile Char.isWhitespace)) = false := by
          obtain ⟨k, hk⟩ := dropWhile_eq_drop Char.isWhitespace rest
          have h2 : p1At (rest.drop k) = false := h (k + 2)
          rw [hk, h2]
          simp
        simp only [p2MatchAt, hfl, Bool.false_eq_true, if_false]
    simp only [searchP2, hm]
    exact ih (fun i => h (i + 1))

lemma searchP3_none (cs : List Char)
    (h : ∀ i, p1At (cs.drop i) = false) : searchP3 cs = none := by
  induction cs with
  | nil => rfl
  | cons c cs ih =>
    have hm : p3At (c :: cs) = false := by
      have h0 : p1At (c :: cs) = false := h 0
      simp [p3At, h0]
    simp only [searchP3, hm, Bool.false_eq_true, if_false]
    exact ih (fun i => h (i + 1))

lemma searchP1_of_p1At_take (l : List Char) (h : p1At l = true) :
    searchP1 (l.take 4) = some (l.take 4) := by
  obtain ⟨c3, c4, rest, he, h3, h4⟩ := p1At_shape l h
  subst he
  simp [searchP1, p1At, h3, h4]

lemma extract_year_eq_searchP1 (s : String) :
    extract_year_from_text s
      = (searchP1 s.data).map (fun y => String.mk y) := by
  cases h : searchP1 s.data with
  | some m =>
    obtain ⟨i, h1, h2, h3⟩ := searchP1_some_spec s.data m h
    have hm : searchP1 m = some m := by
      rw [h2]; exact searchP1_of_p1At_take _ h1
    simp [extract_year_from_text, h, hm]
  | none =>
    have hall : ∀ i, p1At (s.data.drop i) = false :=
      (searchP1_eq_none_iff s.data).mp h
    simp [extract_year_from_text, h, searchP2_none s.data hall,
      searchP3_none s.data hall]

/-- C9: `_extract_year_from_text` returns none exactly when the text has no
position at which 20\d\x7b2\x7d matches (no four-character year of the form
20xx), and when it returns a value, that value is the text of the leftmost
match of 20\d\x7b2\x7d — the first such substring of the input — a
four-character string beginning with 2 0 that occurs contiguously in the
input. -/
theorem extract_year_from_text_spec (s : String) :
    (extract_year_from_text s = none ↔
      ∀ i, p1At (s.data.drop i) = false) ∧
    (∀ y, extract_year_from_text s = some y →
      (∃ i, p1At (s.data.drop i) = true ∧
        y.data = (s.data.drop i).take 4 ∧
        ∀ j, j < i → p1At (s.data.drop j) = false) ∧
      y.data.length = 4 ∧ y.data.take 2 = ['2', '0'] ∧
      ∃ pre post, s.data = pre ++ y.data ++ post) := by
  constructor
  · rw [extract_year_eq_searchP1, Option.map_eq_none', searchP1_eq_none_iff]
  · intro y hy
    rw [extract_year_eq_searchP1] at hy
    cases h : searchP1 s.data with
    | none => rw [h] at hy; cases hy
    | some m =>
      rw [h] at hy
      simp only [Option.map_some'] at hy
      injection hy with hy
      obtain rfl := hy
      obtain ⟨i, h1, h2, h3⟩ := searchP1_some_spec s.data m h
      obtain ⟨hl, ht, hinf⟩ := searchP1_some_props s.data m h
      exact ⟨⟨i, h1, h2, h3⟩, hl, ht, hinf⟩

/-- Witness for C9 at a concrete input: in ar 2023 the first (and only)
match of the year regex is 2023, a four-character string starting with 2 0
occurring in the input. -/
theorem extract_year_from_text_spec_witness :
    (∃ i, p1At (("ar 2023" : String).data.drop i) = true ∧
      ("2023" : String).data = (("ar 2023" : String).data.drop i).take 4 ∧
      ∀ j, j < i → p1At (("ar 2023" : String).data.drop j) = false) ∧
    ("2023" : String).data.length = 4 ∧
    ("2023" : String).data.take 2 = ['2', '0'] ∧
    ∃ pre post,
      ("ar 2023" : String).data = pre ++ ("2023" : String).data ++ post :=
  (extract_year_from_text_spec "ar 2023").2 "2023" (by decide)

end DataDiscovery
